import Mathlib

/-!
Shallow embedding of the Instagram gateway server
(`src/server.js` — the legacy mock-backed variant, and
`src/unnamed/part_001` — the Graph-API variant).

Handlers are embedded as pure functions from the request parameters and an
injected upstream transport to a (response, upstream-call-trace) pair: the
trace records every upstream HTTP call the handler issues, so properties of
the form "no upstream call is made" are provable about the trace.
-/

/-- JS falsy test for an optional string parameter:
`!x` is true when the query/body field is absent (`undefined`) or `""`. -/
def isFalsy : Option String → Bool
  | none => true
  | some s => s = ""

/-- Whitespace skipped by JS `parseInt` before parsing. -/
def isJsSpace (c : Char) : Bool :=
  c = ' ' ∨ c = '\t' ∨ c = '\n' ∨ c = '\r' ∨ c = '\x0b' ∨ c = '\x0c'

/-- Decimal digit value of a character, if any. -/
def decDigit (c : Char) : Option Nat :=
  if c.isDigit then some (c.toNat - 48) else none

/-- Hexadecimal digit value of a character, if any. -/
def hexDigit (c : Char) : Option Nat :=
  if c.isDigit then some (c.toNat - 48)
  else if ('a' ≤ c ∧ c ≤ 'f') then some (c.toNat - 97 + 10)
  else if ('A' ≤ c ∧ c ≤ 'F') then some (c.toNat - 65 + 10)
  else none

/-- Longest prefix of digit values recognised by `digit?`. -/
def takeDigits (digit? : Char → Option Nat) : List Char → List Nat
  | [] => []
  | c :: cs =>
    match digit? c with
    | some d => d :: takeDigits digit? cs
    | none => []

/-- Fold a digit list into a natural number in the given base. -/
def digitsVal (base : Nat) (ds : List Nat) : Nat :=
  ds.foldl (fun a d => a * base + d) 0

/-- JS `parseInt(s)` (radix unspecified): skip whitespace, optional sign,
optional `0x`/`0X` hex prefix, then the longest digit prefix; `none` is NaN. -/
def jsParseInt (s : String) : Option Int :=
  let cs := s.toList.dropWhile isJsSpace
  let (neg, cs₁) : Bool × List Char :=
    match cs with
    | '-' :: rest => (true, rest)
    | '+' :: rest => (false, rest)
    | _ => (false, cs)
  let (base, cs₂) : Nat × List Char :=
    match cs₁ with
    | '0' :: 'x' :: rest => (16, rest)
    | '0' :: 'X' :: rest => (16, rest)
    | _ => (10, cs₁)
  let ds := takeDigits (if base = 16 then hexDigit else decDigit) cs₂
  if ds.isEmpty then none
  else
    let n : Int := (digitsVal base ds : Nat)
    some (if neg then -n else n)

/-- JS `toLowerCase()` on the ASCII range (usernames and the strings the
handlers compare are ASCII), mapping each character through `Char.toLower`. -/
def lowerAscii (s : String) : String :=
  String.mk (s.toList.map Char.toLower)

/-- `parseInt(req.query.limit) || d`: NaN (no parse) and `0` both fall back
to the default `d` because they are falsy in JS. -/
def effectiveLimit (d : Int) (limitParam : Option String) : Int :=
  match limitParam.bind jsParseInt with
  | none => d
  | some n => if n = 0 then d else n

/-! ## Data model (Graph-API variant, `src/unnamed/part_001`) -/

/-- One record of the upstream `/{accountId}/media` response; the handler
returns these verbatim as the output posts. -/
structure MediaRecord where
  id : String
  caption : String
  media_url : String
  media_type : String
  timestamp : String
  like_count : Nat
  comments_count : Nat
  permalink : String
deriving Repr, DecidableEq

/-- Profile fields requested from `/{igAccountId}?fields=id,username,name,...`. -/
structure Profile where
  id : String
  username : String
  name : String
  profile_picture_url : String
  followers_count : Nat
  follows_count : Nat
  media_count : Nat
deriving Repr, DecidableEq

/-- One entry of the `/me/accounts` page list: its id and page-scoped token. -/
structure Page where
  id : String
  access_token : String
deriving Repr, DecidableEq

/-- Result of `getBusinessAccountInfo`: the resolved Instagram business
account id, the page-scoped token, and the profile fields. -/
structure AccountInfo where
  accountId : String
  accessToken : String
  profile : Profile
deriving Repr, DecidableEq

/-- An upstream HTTP call issued by the Graph-API handlers, with the
arguments that appear in the request URL. -/
inductive UpstreamCall where
  | meAccounts (accessToken : String)
  | pageIgAccount (pageId : String) (pageToken : String)
  | igProfile (igAccountId : String) (token : String)
  | igMedia (accountId : String) (token : String) (limit : Int)
deriving Repr, DecidableEq

/-- The injected upstream transport: each field models one Graph-API GET.
`Except String` is axios resolving (`.ok`) or throwing (`.error message`);
for `/me/accounts` the `Option` models an absent `data` field, and for the
page-linkage call it models an absent `instagram_business_account` field. -/
structure Upstream where
  meAccounts : String → Except String (Option (List Page))
  pageIgAccount : String → String → Except String (Option String)
  igProfile : String → String → Except String Profile
  igMedia : String → String → Int → Except String (List MediaRecord)

/-- `InstagramGraphAPI.getBusinessAccountInfo(accessToken)`: chained lookup
credential → linked pages → first page's linked business account → profile
fields, each step short-circuiting; errors are wrapped with the
`Failed to get business account info:` prefix. Returns the result with the
trace of upstream calls made. -/
def getBusinessAccountInfo (up : Upstream) (accessToken : String) :
    Except String AccountInfo × List UpstreamCall :=
  let c₁ := UpstreamCall.meAccounts accessToken
  match up.meAccounts accessToken with
  | .error e => (.error ("Failed to get business account info: " ++ e), [c₁])
  | .ok none =>
    (.error "Failed to get business account info: No Facebook pages found", [c₁])
  | .ok (some []) =>
    (.error "Failed to get business account info: No Facebook pages found", [c₁])
  | .ok (some (page :: _)) =>
    let pageId := page.id
    let pageToken := page.access_token
    let c₂ := UpstreamCall.pageIgAccount pageId pageToken
    match up.pageIgAccount pageId pageToken with
    | .error e => (.error ("Failed to get business account info: " ++ e), [c₁, c₂])
    | .ok none =>
      (.error "Failed to get business account info: No Instagram business account connected",
       [c₁, c₂])
    | .ok (some igAccountId) =>
      let c₃ := UpstreamCall.igProfile igAccountId pageToken
      match up.igProfile igAccountId pageToken with
      | .error e => (.error ("Failed to get business account info: " ++ e), [c₁, c₂, c₃])
      | .ok profile =>
        (.ok ⟨igAccountId, pageToken, profile⟩, [c₁, c₂, c₃])

/-- `InstagramGraphAPI.getBusinessAccountPosts(accountId, accessToken, limit)`:
one `/{accountId}/media` call; the upstream `data` array is returned verbatim. -/
def getBusinessAccountPosts (up : Upstream) (accountId accessToken : String)
    (limit : Int) : Except String (List MediaRecord) × List UpstreamCall :=
  let c := UpstreamCall.igMedia accountId accessToken limit
  match up.igMedia accountId accessToken limit with
  | .error e => (.error ("Failed to get business posts: " ++ e), [c])
  | .ok records => (.ok records, [c])

/-! ## HTTP responses and route handlers (`src/unnamed/part_001`) -/

/-- The JSON body the handlers send, together with the HTTP status code.
Fields absent from a given response are `none`. -/
structure HttpResponse where
  status : Nat
  success : Bool
  error : Option String := none
  username : Option String := none
  account_type : Option String := none
  profile : Option Profile := none
  posts : Option (List MediaRecord) := none
  recommendation : Option String := none
  alternatives : List String := []
  auth_url : Option String := none
  instructions : List String := []
  access_token : Option String := none
  token_type : Option String := none
  expires_in : Option Nat := none
deriving Repr, DecidableEq

/-- `app.get("/api/instagram/business/:username")`: parse the limit with
`parseInt(req.query.limit) || 25`, require a truthy `access_token`, resolve
the business account, reject with 404 on a case-insensitive username
mismatch, then fetch and return the posts. Any thrown error becomes a 500. -/
def businessHandler (up : Upstream) (username : String)
    (access_token : Option String) (limitParam : Option String) :
    HttpResponse × List UpstreamCall :=
  let limit := effectiveLimit 25 limitParam
  if isFalsy access_token then
    ({ status := 400, success := false,
       error := some "Access token is required for business accounts" }, [])
  else
    let tok := access_token.getD ""
    match getBusinessAccountInfo up tok with
    | (.error e, calls) => ({ status := 500, success := false, error := some e }, calls)
    | (.ok info, calls) =>
      if lowerAscii info.profile.username ≠ lowerAscii username then
        ({ status := 404, success := false,
           error := some "Username does not match the authenticated business account" },
         calls)
      else
        match getBusinessAccountPosts up info.accountId info.accessToken limit with
        | (.error e, calls₂) =>
          ({ status := 500, success := false, error := some e }, calls ++ calls₂)
        | (.ok posts, calls₂) =>
          ({ status := 200, success := true,
             username := some info.profile.username,
             account_type := some "business",
             profile := some info.profile,
             posts := some posts }, calls ++ calls₂)

/-- `app.get("/api/instagram/public/:username")`: the limit is parsed
(`parseInt(req.query.limit) || 12`) but unused; the handler unconditionally
responds 501 without touching the scraper or the network. -/
def publicHandler (username : String) (limitParam : Option String) :
    HttpResponse × List UpstreamCall :=
  let _limit := effectiveLimit 12 limitParam
  ({ status := 501, success := false,
     error := some "Public profile scraping is no longer reliable due to Instagram\x27s restrictions",
     recommendation := some "Use Instagram Graph API with business accounts",
     alternatives := ["Convert to Instagram Business account",
                      "Use Instagram Graph API",
                      "Use third-party services like RapidAPI"] }, [])

/-- Characters `encodeURIComponent` leaves unescaped:
`A–Z a–z 0–9 - _ . ! ~ * ' ( )`. -/
def uriUnreserved (c : Char) : Bool :=
  c.isAlpha ∨ c.isDigit ∨ c = '-' ∨ c = '_' ∨ c = '.' ∨ c = '!' ∨ c = '~' ∨
    c = '*' ∨ c = Char.ofNat 39 ∨ c = '(' ∨ c = ')'

/-- Uppercase hex digit for a value below 16. -/
def hexUpper (n : Nat) : Char :=
  if n < 10 then Char.ofNat (48 + n) else Char.ofNat (65 + n - 10)

/-- UTF-8 bytes (as `Nat`s below 256) of one character. -/
def utf8Bytes (c : Char) : List Nat :=
  let n := c.toNat
  if n < 128 then [n]
  else if n < 2048 then [192 + n / 64, 128 + n % 64]
  else if n < 65536 then [224 + n / 4096, 128 + (n / 64) % 64, 128 + n % 64]
  else [240 + n / 262144, 128 + (n / 4096) % 64, 128 + (n / 64) % 64, 128 + n % 64]

/-- Percent-encode one byte as `%XY` with uppercase hex. -/
def pctByte (b : Nat) : List Char :=
  ['%', hexUpper (b / 16), hexUpper (b % 16)]

/-- JS `encodeURIComponent`: unreserved characters pass through, every other
character is replaced by the percent-encoding of its UTF-8 bytes. -/
def encodeURIComponent (s : String) : String :=
  String.mk (s.toList.foldr
    (fun c acc =>
      if uriUnreserved c then c :: acc
      else (utf8Bytes c).foldr (fun b a => pctByte b ++ a) [] ++ acc)
    [])

/-- The OAuth dialog URL built by the `/api/auth/instagram` handler. -/
def buildAuthURL (app_id redirect_uri : String) : String :=
  "https://www.facebook.com/v18.0/dialog/oauth?client_id=" ++ app_id ++
    "&redirect_uri=" ++ encodeURIComponent redirect_uri ++
    "&scope=instagram_basic,pages_show_list,pages_read_engagement&response_type=code"

/-- The OAuth dialog URL exactly as spec §6 writes it (spec-side definition,
compared against the code's `buildAuthURL` in the C8 theorem). -/
def specAuthURL (app_id redirect_uri : String) : String :=
  "https://www.facebook.com/v18.0/dialog/oauth?client_id=" ++ app_id ++
    "&redirect_uri=" ++ encodeURIComponent redirect_uri ++
    "&scope=instagram_basic,pages_show_list,pages_read_engagement&response_type=code"

/-- `app.get("/api/auth/instagram")`: 400 when `app_id` or `redirect_uri` is
falsy, otherwise the auth URL plus the three instruction lines. -/
def authHandler (app_id redirect_uri : Option String) : HttpResponse :=
  if isFalsy app_id ∨ isFalsy redirect_uri then
    { status := 400, success := false,
      error := some "app_id and redirect_uri are required" }
  else
    { status := 200, success := true,
      auth_url := some (buildAuthURL (app_id.getD "") (redirect_uri.getD "")),
      instructions := ["1. Visit the auth_url to authorize your app",
                       "2. Copy the authorization code from the redirect",
                       "3. Exchange the code for an access token using /api/auth/token"] }

/-- Upstream token payload from `graph.facebook.com/v18.0/oauth/access_token`. -/
structure TokenData where
  access_token : String
  token_type : String
  expires_in : Nat
deriving Repr, DecidableEq

/-- The single outbound call of the token-exchange handler, with the four
query parameters of its URL (`redirect_uri` already URL-encoded). -/
inductive TokenCall where
  | exchange (client_id : String) (redirect_uri : String)
      (client_secret : String) (code : String)
deriving Repr, DecidableEq

/-- `app.post("/api/auth/token")`: 400 when any of the four body fields is
falsy, before any outbound call; otherwise one exchange call, whose failure
becomes a 500 with a fixed message. -/
def tokenHandler (exchange : TokenCall → Except String TokenData)
    (code app_id app_secret redirect_uri : Option String) :
    HttpResponse × List TokenCall :=
  if isFalsy code ∨ isFalsy app_id ∨ isFalsy app_secret ∨ isFalsy redirect_uri then
    ({ status := 400, success := false,
       error := some "code, app_id, app_secret, and redirect_uri are required" }, [])
  else
    let call := TokenCall.exchange (app_id.getD "")
      (encodeURIComponent (redirect_uri.getD "")) (app_secret.getD "") (code.getD "")
    match exchange call with
    | .error _ =>
      ({ status := 500, success := false,
         error := some "Failed to exchange code for token" }, [call])
    | .ok t =>
      ({ status := 200, success := true,
         access_token := some t.access_token,
         token_type := some t.token_type,
         expires_in := some t.expires_in }, [call])

/-! ## Legacy mock-backed variant (`src/server.js`) -/

/-- One character of the class `[a-zA-Z0-9._]`. -/
def usernameChar (c : Char) : Bool :=
  c.isAlpha ∨ c.isDigit ∨ c = '.' ∨ c = '_'

/-- The username validation `/^[a-zA-Z0-9._]{1,30}$/.test(username)` of the
legacy handler (the JS also rejects `!username`, subsumed by the length
lower bound). -/
def validUsername (s : String) : Bool :=
  1 ≤ s.length ∧ s.length ≤ 30 ∧ s.toList.all usernameChar

/-- A post of the legacy mock dataset / response shape. -/
structure LegacyPost where
  id : String
  caption : String
  media_url : String
  media_type : String
  timestamp : String
  likes_count : Nat
  comments_count : Nat
deriving Repr, DecidableEq

/-- A profile of the legacy mock dataset / response shape. -/
structure LegacyProfile where
  username : String
  full_name : String
  profile_pic_url : String
  followers_count : Nat
  following_count : Nat
  posts_count : Nat
deriving Repr, DecidableEq

/-- One entry of `mockUserData`. -/
structure LegacyUser where
  profile : LegacyProfile
  posts : List LegacyPost
deriving Repr, DecidableEq

/-- A call of `fetchInstagramData(username, limit)` — the stand-in for the
upstream fetch in the legacy variant, recorded so "zero calls" is provable. -/
inductive FetchCall where
  | fetchData (username : String) (limit : Int)
deriving Repr, DecidableEq

/-- `fetchInstagramData`: look the lowercased username up in the dataset,
throw `User not found` when absent, else return the profile and
`posts.slice(0, limit)`. The dataset is the injected `dataMap`
(`mockUserData` in the source). -/
def fetchInstagramData (dataMap : String → Option LegacyUser)
    (username : String) (limit : Int) : Except String (LegacyProfile × List LegacyPost) :=
  match dataMap (lowerAscii username) with
  | none => .error "User not found"
  | some u => .ok (u.profile, u.posts.take limit.toNat)

/-- The legacy handler's JSON response plus status code. -/
structure LegacyResponse where
  status : Nat
  success : Bool
  error : Option String := none
  username : Option String := none
  profile : Option LegacyProfile := none
  posts : Option (List LegacyPost) := none
deriving Repr, DecidableEq

/-- `app.get("/api/instagram/:username")` of `src/server.js`: parse the limit
(`parseInt || 12`), reject a username not matching `^[a-zA-Z0-9._]{1,30}$`
with 400, reject a limit outside [1, 50] with 400 — both before the data
fetch — then fetch; `User not found` becomes 404, anything else 500. -/
def legacyHandler (dataMap : String → Option LegacyUser)
    (username : String) (limitParam : Option String) :
    LegacyResponse × List FetchCall :=
  let limit := effectiveLimit 12 limitParam
  if ¬ validUsername username then
    ({ status := 400, success := false, error := some "Invalid username format" }, [])
  else if limit < 1 ∨ limit > 50 then
    ({ status := 400, success := false,
       error := some "Limit must be between 1 and 50" }, [])
  else
    match fetchInstagramData dataMap username limit with
    | .error e =>
      if e = "User not found" then
        ({ status := 404, success := false, error := some "User not found" },
         [.fetchData username limit])
      else
        ({ status := 500, success := false, error := some "Internal server error" },
         [.fetchData username limit])
    | .ok (profile, posts) =>
      ({ status := 200, success := true, username := some username,
         profile := some profile, posts := some posts },
       [.fetchData username limit])

/-! ## Trace predicates -/

/-- Is this upstream call the post-listing (`/media`) call? -/
def isMediaCall : UpstreamCall → Bool
  | .igMedia _ _ _ => true
  | _ => false

/-- The trace contains no post-listing call. -/
def noMediaCall (calls : List UpstreamCall) : Bool :=
  calls.all (fun c => ! isMediaCall c)

/-- Every post-listing call in the trace uses the token `t`. -/
def mediaTokenOnly (t : String) (calls : List UpstreamCall) : Bool :=
  calls.all (fun c =>
    match c with
    | .igMedia _ tk _ => tk = t
    | _ => true)

/-- Every post-listing call in the trace uses the limit `l`. -/
def mediaLimitOnly (l : Int) (calls : List UpstreamCall) : Bool :=
  calls.all (fun c =>
    match c with
    | .igMedia _ _ lim => lim = l
    | _ => true)

/-! ## Concrete test doubles (the scenario of spec §8: tok1/p1/pt1/ig1/acct) -/

/-- Profile returned by the happy-path double. -/
def profAcct : Profile :=
  { id := "ig1", username := "acct", name := "Acct Name",
    profile_picture_url := "https://pic.example/acct.jpg",
    followers_count := 10, follows_count := 5, media_count := 3 }

/-- One media record returned by the happy-path double. -/
def recA : MediaRecord :=
  { id := "m1", caption := "hello", media_url := "https://cdn.example/m1.jpg",
    media_type := "IMAGE", timestamp := "2024-01-15T18:30:00Z",
    like_count := 2, comments_count := 1, permalink := "https://ig.example/p/m1" }

/-- Happy-path upstream double: credential `tok1` has one linked page
`p1` with page token `pt1`, linked to business account `ig1` / `acct`. -/
def upOk : Upstream :=
  { meAccounts := fun tok =>
      if tok = "tok1" then .ok (some [{ id := "p1", access_token := "pt1" }])
      else .error "Invalid OAuth access token"
    pageIgAccount := fun pid ptok =>
      if pid = "p1" ∧ ptok = "pt1" then .ok (some "ig1")
      else .error "Unsupported get request"
    igProfile := fun aid t =>
      if aid = "ig1" ∧ t = "pt1" then .ok profAcct
      else .error "Unsupported get request"
    igMedia := fun aid t _ =>
      if aid = "ig1" ∧ t = "pt1" then .ok [recA]
      else .error "Unsupported get request" }

/-- Upstream double whose every call fails (network error). -/
def upErr : Upstream :=
  { meAccounts := fun _ => .error "Network Error"
    pageIgAccount := fun _ _ => .error "Network Error"
    igProfile := fun _ _ => .error "Network Error"
    igMedia := fun _ _ _ => .error "Network Error" }

/-- Upstream double whose page list is empty; later stages are never
reachable and answer with an error if ever called. -/
def upNoPages : Upstream :=
  { meAccounts := fun _ => .ok (some [])
    pageIgAccount := fun _ _ => .error "unreachable"
    igProfile := fun _ _ => .error "unreachable"
    igMedia := fun _ _ _ => .error "unreachable" }

/-- Token-exchange double that always fails. -/
def exchFail : TokenCall → Except String TokenData :=
  fun _ => .error "Invalid verification code format."

/-- Empty legacy dataset. -/
def noUsers : String → Option LegacyUser := fun _ => none

/-! ## Helper lemmas -/

/-- The resolution chain (`getBusinessAccountInfo`) never issues the
post-listing (`/media`) call: its trace holds only the three lookup calls. -/
theorem noMediaCall_info (up : Upstream) (tok : String) :
    noMediaCall (getBusinessAccountInfo up tok).2 = true := by
  unfold getBusinessAccountInfo
  rcases h₁ : up.meAccounts tok with e | op
  · simp [noMediaCall, isMediaCall]
  · rcases op with _ | (_ | ⟨page, rest⟩)
    · simp [noMediaCall, isMediaCall]
    · simp [noMediaCall, isMediaCall]
    · rcases h₂ : up.pageIgAccount page.id page.access_token with e | oid
      · simp [h₂, noMediaCall, isMediaCall]
      · rcases oid with _ | igid
        · simp [h₂, noMediaCall, isMediaCall]
        · rcases h₃ : up.igProfile igid page.access_token with e | prof <;>
            simp [h₂, h₃, noMediaCall, isMediaCall]

/-- A trace with no post-listing call trivially satisfies `mediaTokenOnly`. -/
theorem mediaTokenOnly_of_noMedia (t : String) (cs : List UpstreamCall)
    (h : noMediaCall cs = true) : mediaTokenOnly t cs = true := by
  simp only [noMediaCall, mediaTokenOnly, List.all_eq_true] at h ⊢
  intro c hc
  have hx := h c hc
  cases c <;> simp [isMediaCall] at hx ⊢

/-- A trace with no post-listing call trivially satisfies `mediaLimitOnly`. -/
theorem mediaLimitOnly_of_noMedia (l : Int) (cs : List UpstreamCall)
    (h : noMediaCall cs = true) : mediaLimitOnly l cs = true := by
  simp only [noMediaCall, mediaLimitOnly, List.all_eq_true] at h ⊢
  intro c hc
  have hx := h c hc
  cases c <;> simp [isMediaCall] at hx ⊢

/-- The post-listing function issues exactly one upstream call, with the
arguments it was given. -/
theorem getBusinessAccountPosts_calls (up : Upstream) (a t : String) (l : Int) :
    (getBusinessAccountPosts up a t l).2 = [UpstreamCall.igMedia a t l] := by
  unfold getBusinessAccountPosts
  rcases h : up.igMedia a t l with e | r <;> simp [h]

/-- Every post-listing call the business handler issues uses the limit it
computed from the query string (`parseInt(req.query.limit) || 25`). -/
theorem businessHandler_mediaLimit (up : Upstream) (u : String)
    (tokOpt lp : Option String) :
    mediaLimitOnly (effectiveLimit 25 lp) (businessHandler up u tokOpt lp).2 = true := by
  unfold businessHandler
  rcases hf : isFalsy tokOpt with _ | _
  · rcases hga : getBusinessAccountInfo up (tokOpt.getD "") with ⟨r, calls⟩
    have hnm := noMediaCall_info up (tokOpt.getD "")
    rw [hga] at hnm
    cases r with
    | error e =>
      simp only [hf, hga, Bool.false_eq_true, if_false]
      exact mediaLimitOnly_of_noMedia _ _ hnm
    | ok info =>
      simp only [hf, hga, Bool.false_eq_true, if_false]
      by_cases hm : lowerAscii info.profile.username ≠ lowerAscii u
      · rw [if_pos hm]
        exact mediaLimitOnly_of_noMedia _ _ hnm
      · rw [if_neg hm]
        rcases hgp : getBusinessAccountPosts up info.accountId info.accessToken
            (effectiveLimit 25 lp) with ⟨r₂, calls₂⟩
        have hc₂ : calls₂ = [UpstreamCall.igMedia info.accountId info.accessToken
            (effectiveLimit 25 lp)] := by
          have := getBusinessAccountPosts_calls up info.accountId info.accessToken
            (effectiveLimit 25 lp)
          rw [hgp] at this
          exact this
        cases r₂ <;>
          (simp_all [mediaLimitOnly, noMediaCall, List.all_eq_true, isMediaCall];
           intro x hx;
           have hx2 := hnm x hx;
           cases x <;> simp_all)
  · simp only [hf, if_true]
    rfl

/-- Every post-listing call the business handler issues uses the page-scoped
token of the resolved account. -/
theorem businessHandler_mediaToken (up : Upstream) (u : String)
    (tokOpt lp : Option String) (info : AccountInfo)
    (hres : (getBusinessAccountInfo up (tokOpt.getD "")).1 = .ok info) :
    mediaTokenOnly info.accessToken (businessHandler up u tokOpt lp).2 = true := by
  unfold businessHandler
  rcases hf : isFalsy tokOpt with _ | _
  · rcases hga : getBusinessAccountInfo up (tokOpt.getD "") with ⟨r, calls⟩
    have hnm := noMediaCall_info up (tokOpt.getD "")
    rw [hga] at hnm hres
    cases r with
    | error e => simp at hres
    | ok a =>
      have ha : a = info := by simpa using hres
      subst ha
      simp only [hf, hga, Bool.false_eq_true, if_false]
      by_cases hm : lowerAscii a.profile.username ≠ lowerAscii u
      · rw [if_pos hm]
        exact mediaTokenOnly_of_noMedia _ _ hnm
      · rw [if_neg hm]
        rcases hgp : getBusinessAccountPosts up a.accountId a.accessToken
            (effectiveLimit 25 lp) with ⟨r₂, calls₂⟩
        have hc₂ : calls₂ = [UpstreamCall.igMedia a.accountId a.accessToken
            (effectiveLimit 25 lp)] := by
          have := getBusinessAccountPosts_calls up a.accountId a.accessToken
            (effectiveLimit 25 lp)
          rw [hgp] at this
          exact this
        cases r₂ <;>
          (simp_all [mediaTokenOnly, noMediaCall, List.all_eq_true, isMediaCall];
           intro x hx;
           have hx2 := hnm x hx;
           cases x <;> simp_all)
  · simp only [hf, if_true]
    rfl

/-! ## Claim theorems -/

/-- C1: whenever the resolved business account's username differs
case-insensitively from the requested path username, the business-endpoint
handler answers 404 with `success : false` and never issues the
post-listing (`PostFetcher`) call. -/
theorem business_username_mismatch_returns_404 (up : Upstream)
    (username tok : String) (limitParam : Option String) (info : AccountInfo)
    (htok : tok ≠ "")
    (hres : (getBusinessAccountInfo up tok).1 = .ok info)
    (hmm : lowerAscii info.profile.username ≠ lowerAscii username) :
    (businessHandler up username (some tok) limitParam).1.status = 404 ∧
    (businessHandler up username (some tok) limitParam).1.success = false ∧
    noMediaCall (businessHandler up username (some tok) limitParam).2 = true := by
  have hf : isFalsy (some tok) = false := by simp [isFalsy, htok]
  have hnm := noMediaCall_info up tok
  rcases hga : getBusinessAccountInfo up tok with ⟨r, calls⟩
  rw [hga] at hres hnm
  cases r with
  | error e => simp at hres
  | ok a =>
    have ha : a = info := by simpa using hres
    subst ha
    unfold businessHandler
    simp only [Option.getD_some, hga, hf, Bool.false_eq_true, if_false]
    rw [if_pos hmm]
    exact ⟨rfl, rfl, by simpa using hnm⟩

/-- C1 witness: with the happy-path double (account `acct`) and requested
username `other`, the business handler answers 404 / success false with no
post-listing call. -/
theorem business_username_mismatch_returns_404_witness :
    (businessHandler upOk "other" (some "tok1") none).1.status = 404 ∧
    (businessHandler upOk "other" (some "tok1") none).1.success = false ∧
    noMediaCall (businessHandler upOk "other" (some "tok1") none).2 = true :=
  business_username_mismatch_returns_404 upOk "other" "tok1" none
    ⟨"ig1", "pt1", profAcct⟩ (by decide) rfl (by decide)

/-- C2 counterexample: at the business endpoint the syntactically invalid
username `bad!name` (no match for `^[A-Za-z0-9._]{1,30}$`) is not rejected
by any validator: the handler still issues the upstream `/me/accounts` call
and answers 500 (the upstream error), not a validation failure. -/
theorem business_skips_username_validation :
    validUsername "bad!name" = false ∧
    (businessHandler upErr "bad!name" (some "tok") none).2 =
      [UpstreamCall.meAccounts "tok"] ∧
    (businessHandler upErr "bad!name" (some "tok") none).1.status = 500 := by
  exact ⟨by decide, by decide, by decide⟩

/-- C2 amended: only the legacy `/api/instagram/:username` handler
(`src/server.js`) validates the username shape; there, every username not
matching `^[a-zA-Z0-9._]{1,30}$` is rejected with a 400 validation error
and the data fetch is never invoked (zero fetch calls). -/
theorem legacy_invalid_username_rejected (dataMap : String → Option LegacyUser)
    (username : String) (limitParam : Option String)
    (h : validUsername username = false) :
    legacyHandler dataMap username limitParam =
      ({ status := 400, success := false, error := some "Invalid username format" }, []) := by
  unfold legacyHandler
  simp [h]

/-- C2 witness: the legacy handler rejects `bad!name` with 400 and makes no
fetch call. -/
theorem legacy_invalid_username_rejected_witness :
    legacyHandler noUsers "bad!name" none =
      ({ status := 400, success := false, error := some "Invalid username format" }, []) :=
  legacy_invalid_username_rejected noUsers "bad!name" none (by decide)

/-- C3 counterexample: the supplied limit `101` lies outside [1, 100], yet
the business endpoint performs no limit validation: the request is not
rejected (it answers 200) and the unclamped limit 101 is passed to the
upstream media call. -/
theorem business_skips_limit_validation :
    effectiveLimit 25 (some "101") = 101 ∧
    (businessHandler upOk "acct" (some "tok1") (some "101")).1.status = 200 ∧
    UpstreamCall.igMedia "ig1" "pt1" 101 ∈
      (businessHandler upOk "acct" (some "tok1") (some "101")).2 := by
  exact ⟨by decide, by decide, by decide⟩

/-- C3 amended: the business endpoint does not validate the limit at all
(`parseInt(limit) || 25` is passed upstream unclamped); only the legacy
`/api/instagram/:username` handler rejects an out-of-range limit, with a
400 validation error and zero fetch calls, and its range is [1, 50]. -/
theorem legacy_limit_out_of_range_rejected (dataMap : String → Option LegacyUser)
    (username : String) (limitParam : Option String)
    (hu : validUsername username = true)
    (hl : effectiveLimit 12 limitParam < 1 ∨ effectiveLimit 12 limitParam > 50) :
    legacyHandler dataMap username limitParam =
      ({ status := 400, success := false,
         error := some "Limit must be between 1 and 50" }, []) := by
  unfold legacyHandler
  simp [hu, hl]

/-- C3 witness: the legacy handler rejects limit `51` for the valid
username `johndoe` with 400 and no fetch call. -/
theorem legacy_limit_out_of_range_rejected_witness :
    legacyHandler noUsers "johndoe" (some "51") =
      ({ status := 400, success := false,
         error := some "Limit must be between 1 and 50" }, []) :=
  legacy_limit_out_of_range_rejected noUsers "johndoe" (some "51")
    (by decide) (by decide)

/-- C4: when the upstream `/me/accounts` page list is empty or absent,
resolution fails with the no-linked-pages error and the trace holds only
that first call — the page-linkage and profile lookups are never issued. -/
theorem resolution_empty_pages_no_further_calls (up : Upstream) (tok : String)
    (h : up.meAccounts tok = .ok (some []) ∨ up.meAccounts tok = .ok none) :
    getBusinessAccountInfo up tok =
      (.error "Failed to get business account info: No Facebook pages found",
       [UpstreamCall.meAccounts tok]) := by
  unfold getBusinessAccountInfo
  rcases h with h | h <;> rw [h]

/-- C4 witness: the empty-page-list double fails resolution after exactly
one upstream call. -/
theorem resolution_empty_pages_no_further_calls_witness :
    getBusinessAccountInfo upNoPages "tok1" =
      (.error "Failed to get business account info: No Facebook pages found",
       [UpstreamCall.meAccounts "tok1"]) :=
  resolution_empty_pages_no_further_calls upNoPages "tok1" (.inl rfl)

/-- C5: on successful resolution the first page of the list is the one
selected (its id is used for the linkage lookup), its page-scoped token is
the token carried in the result and used for the profile-fields call, and
every post-listing call the business handler issues uses that page token —
not necessarily the caller's original credential. -/
theorem resolution_uses_first_page_token (up : Upstream)
    (tok username : String) (limitParam : Option String)
    (page : Page) (rest : List Page) (info : AccountInfo)
    (hpages : up.meAccounts tok = .ok (some (page :: rest)))
    (hres : (getBusinessAccountInfo up tok).1 = .ok info) :
    info.accessToken = page.access_token ∧
    UpstreamCall.pageIgAccount page.id page.access_token ∈
      (getBusinessAccountInfo up tok).2 ∧
    UpstreamCall.igProfile info.accountId page.access_token ∈
      (getBusinessAccountInfo up tok).2 ∧
    mediaTokenOnly page.access_token
      (businessHandler up username (some tok) limitParam).2 = true := by
  have hres' := hres
  have hstep : info.accessToken = page.access_token ∧
      UpstreamCall.pageIgAccount page.id page.access_token ∈
        (getBusinessAccountInfo up tok).2 ∧
      UpstreamCall.igProfile info.accountId page.access_token ∈
        (getBusinessAccountInfo up tok).2 := by
    simp only [getBusinessAccountInfo, hpages] at hres ⊢
    rcases h₂ : up.pageIgAccount page.id page.access_token with e | (_ | igid)
    · simp [h₂] at hres
    · simp [h₂] at hres
    · rcases h₃ : up.igProfile igid page.access_token with e | prof
      · simp [h₂, h₃] at hres
      · simp only [h₂, h₃] at hres ⊢
        simp only [Except.ok.injEq] at hres
        subst hres
        simp
  refine ⟨hstep.1, hstep.2.1, hstep.2.2, ?_⟩
  have := businessHandler_mediaToken up username (some tok) limitParam info
    (by simpa using hres')
  rwa [hstep.1] at this

/-- C5 witness: for the happy-path double the resolved token is the
page-scoped `pt1`, the linkage and profile calls target `p1`/`pt1`, and the
handler's media call uses `pt1`. -/
theorem resolution_uses_first_page_token_witness :
    (⟨"ig1", "pt1", profAcct⟩ : AccountInfo).accessToken =
      (⟨"p1", "pt1"⟩ : Page).access_token ∧
    UpstreamCall.pageIgAccount "p1" "pt1" ∈ (getBusinessAccountInfo upOk "tok1").2 ∧
    UpstreamCall.igProfile "ig1" "pt1" ∈ (getBusinessAccountInfo upOk "tok1").2 ∧
    mediaTokenOnly "pt1" (businessHandler upOk "acct" (some "tok1") none).2 = true :=
  resolution_uses_first_page_token upOk "tok1" "acct" none
    ⟨"p1", "pt1"⟩ [] ⟨"ig1", "pt1", profAcct⟩ rfl rfl

/-- C6: when the upstream media listing returns `records` (with at most
`limit` entries), the post-fetch operation returns exactly that sequence —
same length, same order, every field mapped 1:1 — after exactly one
upstream call with the requested limit. -/
theorem posts_roundtrip_identity (up : Upstream) (a t : String) (l : Int)
    (records : List MediaRecord)
    (hup : up.igMedia a t l = .ok records)
    (hlen : (records.length : Int) ≤ l) :
    (getBusinessAccountPosts up a t l).1 = .ok records ∧
    (getBusinessAccountPosts up a t l).2 = [UpstreamCall.igMedia a t l] := by
  unfold getBusinessAccountPosts
  rw [hup]
  exact ⟨rfl, rfl⟩

/-- C6 witness: the happy-path double's single record round-trips
unchanged through the post fetch at limit 25. -/
theorem posts_roundtrip_identity_witness :
    (getBusinessAccountPosts upOk "ig1" "pt1" 25).1 = .ok [recA] ∧
    (getBusinessAccountPosts upOk "ig1" "pt1" 25).2 =
      [UpstreamCall.igMedia "ig1" "pt1" 25] :=
  posts_roundtrip_identity upOk "ig1" "pt1" 25 [recA] rfl (by decide)

/-- C7: a token-exchange request missing any of the four required body
fields is answered 400 / success false, and the outbound exchange call is
never made. -/
theorem token_exchange_missing_field_400
    (exchange : TokenCall → Except String TokenData)
    (code app_id app_secret redirect_uri : Option String)
    (h : code = none ∨ app_id = none ∨ app_secret = none ∨ redirect_uri = none) :
    tokenHandler exchange code app_id app_secret redirect_uri =
      ({ status := 400, success := false,
         error := some "code, app_id, app_secret, and redirect_uri are required" }, []) := by
  unfold tokenHandler
  rcases h with h | h | h | h <;> subst h <;> simp [isFalsy]

/-- C7 witness: a body missing `code` is rejected 400 with zero outbound
calls. -/
theorem token_exchange_missing_field_400_witness :
    tokenHandler exchFail none (some "aid") (some "sec") (some "https://r.example/cb") =
      ({ status := 400, success := false,
         error := some "code, app_id, app_secret, and redirect_uri are required" }, []) :=
  token_exchange_missing_field_400 exchFail none (some "aid") (some "sec")
    (some "https://r.example/cb") (.inl rfl)

/-- C8: with both parameters present (non-empty), `/api/auth/instagram`
returns exactly the spec's OAuth URL — client_id verbatim, redirect_uri
URL-encoded, the fixed scope and response_type — and a missing parameter
yields 400 / success false. -/
theorem auth_url_built_exactly (app_id redirect_uri : String)
    (ha : app_id ≠ "") (hr : redirect_uri ≠ "") :
    (authHandler (some app_id) (some redirect_uri)).status = 200 ∧
    (authHandler (some app_id) (some redirect_uri)).success = true ∧
    (authHandler (some app_id) (some redirect_uri)).auth_url =
      some (specAuthURL app_id redirect_uri) ∧
    (authHandler none (some redirect_uri)).status = 400 ∧
    (authHandler (some app_id) none).status = 400 ∧
    (authHandler none (some redirect_uri)).success = false ∧
    (authHandler (some app_id) none).success = false := by
  unfold authHandler specAuthURL buildAuthURL
  simp [isFalsy, ha, hr]

/-- C8 witness: concrete app id and redirect URI produce the exact spec
URL; dropping either parameter yields 400. -/
theorem auth_url_built_exactly_witness :
    (authHandler (some "123") (some "https://ex.com/cb")).status = 200 ∧
    (authHandler (some "123") (some "https://ex.com/cb")).success = true ∧
    (authHandler (some "123") (some "https://ex.com/cb")).auth_url =
      some (specAuthURL "123" "https://ex.com/cb") ∧
    (authHandler none (some "https://ex.com/cb")).status = 400 ∧
    (authHandler (some "123") none).status = 400 ∧
    (authHandler none (some "https://ex.com/cb")).success = false ∧
    (authHandler (some "123") none).success = false :=
  auth_url_built_exactly "123" "https://ex.com/cb" (by decide) (by decide)

/-- C9: when the limit query parameter is absent, parses to NaN, or is the
string `0`, the effective limit is the default 25 (`parseInt(limit) || 25`),
and every upstream media call of the business handler uses limit 25. -/
theorem limit_falsy_defaults_25 (up : Upstream) (username : String)
    (tokOpt lp : Option String)
    (h : lp = none ∨ (∃ s, lp = some s ∧ jsParseInt s = none) ∨ lp = some "0") :
    effectiveLimit 25 lp = 25 ∧
    mediaLimitOnly 25 (businessHandler up username tokOpt lp).2 = true := by
  have h25 : effectiveLimit 25 lp = 25 := by
    rcases h with h | ⟨s, hs, hp⟩ | h
    · subst h; rfl
    · subst hs; simp [effectiveLimit, hp]
    · subst h; rfl
  refine ⟨h25, ?_⟩
  have := businessHandler_mediaLimit up username tokOpt lp
  rwa [h25] at this

/-- C9 witness: the non-numeric limit string `abc` falls back to 25, and
the happy-path handler's media call uses limit 25. -/
theorem limit_falsy_defaults_25_witness :
    effectiveLimit 25 (some "abc") = 25 ∧
    mediaLimitOnly 25 (businessHandler upOk "acct" (some "tok1") (some "abc")).2 = true :=
  limit_falsy_defaults_25 upOk "acct" (some "tok1") (some "abc")
    (.inr (.inl ⟨"abc", rfl, by decide⟩))

/-- C10: for every username and limit, `/api/instagram/public/:username`
answers 501 with `success : false`, the fixed explanatory error and
alternatives, and an empty upstream-call trace — the scraping path is
unconditionally disabled. -/
theorem public_endpoint_always_501 (username : String) (limitParam : Option String) :
    publicHandler username limitParam =
      ({ status := 501, success := false,
         error := some "Public profile scraping is no longer reliable due to Instagram\x27s restrictions",
         recommendation := some "Use Instagram Graph API with business accounts",
         alternatives := ["Convert to Instagram Business account",
                          "Use Instagram Graph API",
                          "Use third-party services like RapidAPI"] }, []) := rfl
